import Mathlib

/-!
Shallow embedding of the miniredis sentinel package (src/sentinel/sentinel.go
and src/sentinel/options.go) and proofs about its behaviour.

Modelling conventions:
* A `*miniredis.Miniredis` data-node handle is opaque to this package (identity
  only), so it is modelled as a wrapper around a `Nat` identity.
* A nil Go slice is distinguished from a non-nil one where the source
  distinguishes them (`Options.replicas`): `none` models nil, `some l` models a
  non-nil slice with elements `l`.  On the `Sentinel` itself the nil/empty
  distinction is unobservable through the exported API, so `replicas` is a
  plain list there.
* The external connection server (`github.com/alicebob/miniredis/server`) is
  modelled by the data the sentinel code reads from it: the bound address and
  the connection counters.  Binding is modelled by an environment function
  from the requested port to the bound port or a bind error.
* Methods that mutate the receiver become functions returning the new state.
-/

/-- Opaque handle to a miniredis data-node instance (`*miniredis.Miniredis`):
the sentinel core stores and compares these by identity only. -/
structure Miniredis where
  id : Nat
deriving DecidableEq, Repr

/-- `Options` struct of options.go.  `replicas = none` models a nil Go slice;
`some l` a non-nil slice (possibly empty, as produced by `WithReplicas([])`). -/
structure Options where
  masterName : String
  master : Option Miniredis
  replicas : Option (List Miniredis)
deriving DecidableEq, Repr

/-- `defaultOptions` of options.go: master name "mymaster", no master handle,
nil replica slice. -/
def defaultOptions : Options :=
  { masterName := "mymaster", master := none, replicas := none }

/-- `Option func(*Options)` of options.go: a configuration mutator. -/
def OptionFn : Type := Options → Options

/-- `WithMasterName` of options.go. -/
def WithMasterName (name : String) : OptionFn :=
  fun o => { o with masterName := name }

/-- `WithMaster` of options.go (the option constructor, distinct from the
method `Sentinel.WithMaster`). -/
def WithMaster (m : Miniredis) : OptionFn :=
  fun o => { o with master := some m }

/-- `WithReplicas` of options.go.  A Go caller passing a non-nil slice (even
an empty literal) yields `some replicas`. -/
def WithReplicas (replicas : List Miniredis) : OptionFn :=
  fun o => { o with replicas := some replicas }

/-- `GetOpts` of options.go: deep-copies `defaultOptions` (via
`copystructure.Copy`; under value semantics the copy is the value itself) and
applies the mutators in order. -/
def GetOpts (opt : List OptionFn) : Options :=
  opt.foldl (fun opts o => o opts) defaultOptions

/-- The bound address of the external `server.Server`, as the sentinel code
reads it through `srv.Addr()`: an IP plus a TCP port. -/
structure ServerAddr where
  ip : String
  port : Nat
deriving DecidableEq, Repr

/-- Model of the external `server.Server` handle: the data the sentinel code
reads from it (`Addr`, `ClientsLen`, `TotalConnections`). -/
structure Server where
  addr : ServerAddr
  clientsLen : Nat
  totalConnections : Nat
deriving DecidableEq, Repr

/-- `connCtx` of sentinel.go: all state for a single connection. -/
structure ConnCtx where
  authenticated : Bool
deriving DecidableEq, Repr

/-- Model of the external `server.Peer`: the opaque per-connection context
slot (`Ctx`, nil until populated) and the replies written so far.  An error
reply written through `WriteError` is recorded with its message. -/
structure Peer where
  ctx : Option ConnCtx
  written : List String
deriving DecidableEq, Repr

/-- `Sentinel` struct of sentinel.go.  The embedded `sync.Mutex` and the
`signal` condition variable carry no data and are modelled separately where
a claim is about locking (see the lock-trace embedding below); `srv = none`
models the nil `*server.Server`. -/
structure Sentinel where
  srv : Option Server
  port : Nat
  password : String
  master : Option Miniredis
  replicas : List Miniredis
deriving DecidableEq, Repr

/-- `NewSentinel` of sentinel.go: resolves the options and seeds the fields.
When a master is set, the replica list defaults to the one-element literal
`[]*miniredis.Miniredis{o.master}`; a non-nil `o.replicas` then overrides it. -/
def NewSentinel (opts : List OptionFn) : Sentinel :=
  let o := GetOpts opts
  let s : Sentinel :=
    { srv := none, port := 0, password := "", master := none, replicas := [] }
  let s :=
    match o.master with
    | some m => { s with master := some m, replicas := [m] }
    | none => s
  match o.replicas with
  | some rs => { s with replicas := rs }
  | none => s

/-- Method `Sentinel.WithMaster` of sentinel.go: `s.master = m`. -/
def Sentinel.WithMaster (s : Sentinel) (m : Miniredis) : Sentinel :=
  { s with master := some m }

/-- Method `Sentinel.Master` of sentinel.go. -/
def Sentinel.Master (s : Sentinel) : Option Miniredis :=
  s.master

/-- Method `Sentinel.AddReplica` of sentinel.go:
`s.replicas = append(s.replicas, r)`. -/
def Sentinel.AddReplica (s : Sentinel) (r : Miniredis) : Sentinel :=
  { s with replicas := s.replicas ++ [r] }

/-- Method `Sentinel.SetReplicas` of sentinel.go. -/
def Sentinel.SetReplicas (s : Sentinel) (replicas : List Miniredis) : Sentinel :=
  { s with replicas := replicas }

/-- Method `Sentinel.Replicas` of sentinel.go. -/
def Sentinel.Replicas (s : Sentinel) : List Miniredis :=
  s.replicas

/-- `RequireAuth` of sentinel.go: sets (or, with "", clears) the password. -/
def Sentinel.RequireAuth (s : Sentinel) (pw : String) : Sentinel :=
  { s with password := pw }

/-! ### Lifecycle: binding, start, close, restart

`server.NewServer(addr)` is external; only the port component of the address
influences the sentinel core's behaviour (`Start` formats "127.0.0.1:%d" from
`s.port`, and `start` reads back only `srv.Addr().Port`).  Binding is modelled
by an environment `NetEnv` mapping the requested port to the bound port or a
bind error; a fresh server starts with zero connection counters. -/

/-- The OS/network environment seen by `server.NewServer`: for a requested
port, either the port actually bound or a bind error. -/
def NetEnv : Type := Nat → Except Unit Nat

/-- A faithful environment never reports a successful bind on a different
port than a nonzero requested one, and resolves an ephemeral (port 0) request
to a nonzero port. -/
def NetEnv.Faithful (env : NetEnv) : Prop :=
  ∀ p q, env p = Except.ok q → (p ≠ 0 → q = p) ∧ q ≠ 0

/-- `server.NewServer` on an address with IP `ip` and port `reqPort`:
binds through the environment and returns a fresh server handle. -/
def newServer (env : NetEnv) (ip : String) (reqPort : Nat) :
    Except Unit Server :=
  match env reqPort with
  | Except.error e => Except.error e
  | Except.ok p =>
      Except.ok { addr := { ip := ip, port := p }, clientsLen := 0,
                  totalConnections := 0 }

/-- Unexported `start` of sentinel.go: under the lock, stores the listener and
the resolved port, and registers the PING handler (`commandsPing`, defined in
a sibling file of the repository; it registers a command on `srv` and touches
no controller field, so it leaves this state unchanged). -/
def Sentinel.start (s : Sentinel) (srv : Server) : Sentinel :=
  { s with srv := some srv, port := srv.addr.port }

/-- `Start` of sentinel.go: binds "127.0.0.1:<s.port>"; a bind error is
returned with the controller untouched, otherwise `start` stores the server. -/
def Sentinel.Start (s : Sentinel) (env : NetEnv) :
    Sentinel × Except Unit Unit :=
  match newServer env "127.0.0.1" s.port with
  | Except.error e => (s, Except.error e)
  | Except.ok srv => (s.start srv, Except.ok ())

/-- `StartAddr` of sentinel.go: same as `Start` with a caller-supplied
address (modelled by its IP and port components). -/
def Sentinel.StartAddr (s : Sentinel) (env : NetEnv) (ip : String)
    (reqPort : Nat) : Sentinel × Except Unit Unit :=
  match newServer env ip reqPort with
  | Except.error e => (s, Except.error e)
  | Except.ok srv => (s.start srv, Except.ok ())

/-- `Restart` of sentinel.go: `return s.Start()`. -/
def Sentinel.Restart (s : Sentinel) (env : NetEnv) :
    Sentinel × Except Unit Unit :=
  s.Start env

/-- `Close` of sentinel.go: with no active listener it returns at once;
otherwise it detaches the listener under the lock and then calls the
listener's own `Close` outside the lock (external, touches no controller
field).  It never fails: there is no error return. -/
def Sentinel.Close (s : Sentinel) : Sentinel :=
  match s.srv with
  | none => s
  | some _ => { s with srv := none }

/-! ### Introspection queries

`Addr`, `Host`, `Port`, `CurrentConnectionCount` and `TotalConnectionCount`
all evaluate `s.srv.<method>()` without a nil check.  When `s.srv` is nil
(never started, or closed), this is a method call on a nil `*server.Server`
whose body dereferences the receiver (it acquires the server's internal
mutex), i.e. a Go runtime nil-pointer panic.  `GoResult` makes that outcome
explicit. -/

/-- Outcome of a Go expression that may dereference a nil pointer. -/
inductive GoResult (α : Type) where
  | ok : α → GoResult α
  | nilPanic : GoResult α
deriving DecidableEq, Repr

/-- `Addr` of sentinel.go: `s.srv.Addr().String()` under the lock, i.e.
"ip:port"; a nil `s.srv` panics. -/
def Sentinel.Addr (s : Sentinel) : GoResult String :=
  match s.srv with
  | none => GoResult.nilPanic
  | some srv => GoResult.ok (srv.addr.ip ++ ":" ++ toString srv.addr.port)

/-- `Host` of sentinel.go: `s.srv.Addr().IP.String()` under the lock. -/
def Sentinel.Host (s : Sentinel) : GoResult String :=
  match s.srv with
  | none => GoResult.nilPanic
  | some srv => GoResult.ok srv.addr.ip

/-- `Port` of sentinel.go: `strconv.Itoa(s.srv.Addr().Port)` under the lock. -/
def Sentinel.Port (s : Sentinel) : GoResult String :=
  match s.srv with
  | none => GoResult.nilPanic
  | some srv => GoResult.ok (toString srv.addr.port)

/-- `CurrentConnectionCount` of sentinel.go: `s.srv.ClientsLen()`. -/
def Sentinel.CurrentConnectionCount (s : Sentinel) : GoResult Nat :=
  match s.srv with
  | none => GoResult.nilPanic
  | some srv => GoResult.ok srv.clientsLen

/-- `TotalConnectionCount` of sentinel.go: `int(s.srv.TotalConnections())`. -/
def Sentinel.TotalConnectionCount (s : Sentinel) : GoResult Nat :=
  match s.srv with
  | none => GoResult.nilPanic
  | some srv => GoResult.ok srv.totalConnections

/-! ### Auth gate -/

/-- `getCtx` of sentinel.go: lazily populates the peer's opaque context slot
with a zero-valued `connCtx` and returns it.  Returns the (possibly updated)
peer together with the context read. -/
def getCtx (c : Peer) : Peer × ConnCtx :=
  match c.ctx with
  | none =>
      let ctx : ConnCtx := { authenticated := false }
      ({ c with ctx := some ctx }, ctx)
  | some ctx => (c, ctx)

/-- `setAuthenticated` of sentinel.go: `getCtx(c).authenticated = true`. -/
def setAuthenticated (c : Peer) : Peer :=
  { (getCtx c).1 with ctx := some { authenticated := true } }

/-- `handleAuth` of sentinel.go: under the controller lock, allow when the
password is empty; otherwise allow exactly the authenticated contexts, and on
denial write the NOAUTH error reply to the peer and return false. -/
def Sentinel.handleAuth (s : Sentinel) (c : Peer) : Peer × Bool :=
  if s.password = "" then
    (c, true)
  else
    let (c', ctx) := getCtx c
    if ctx.authenticated = false then
      ({ c' with written := c'.written ++ ["NOAUTH Authentication required."] },
       false)
    else
      (c', true)

/-- The authenticated flag a peer's context currently holds (false when the
context slot is still nil, matching the zero value `getCtx` would create). -/
def ctxAuthenticated (c : Peer) : Bool :=
  match c.ctx with
  | none => false
  | some ctx => ctx.authenticated

/-! ### Lock-trace embedding of the method bodies

To settle claims about which methods hold the controller lock, each method
body of sentinel.go is transcribed as the sequence of primitive actions it
performs on the `Sentinel` struct: acquiring/releasing the embedded mutex,
reading/writing a named field, or calling out to an external component. -/

/-- The mutable fields of the `Sentinel` struct. -/
inductive SField where
  | srv
  | port
  | password
  | master
  | replicas
deriving DecidableEq, Repr

/-- One primitive action of a method body. -/
inductive MAction where
  | lock
  | unlock
  | readF : SField → MAction
  | writeF : SField → MAction
  | callExt
deriving DecidableEq, Repr

/-- Body of `Sentinel.WithMaster` (sentinel.go lines 49-51): `s.master = m`,
with no locking. -/
def withMasterBody : List MAction :=
  [MAction.writeF SField.master]

/-- Body of `Sentinel.Master` (lines 54-56): `return s.master`. -/
def masterBody : List MAction :=
  [MAction.readF SField.master]

/-- Body of `Sentinel.AddReplica` (lines 59-61):
`s.replicas = append(s.replicas, r)` reads then writes the field. -/
def addReplicaBody : List MAction :=
  [MAction.readF SField.replicas, MAction.writeF SField.replicas]

/-- Body of `Sentinel.SetReplicas` (lines 64-66): `s.replicas = replicas`. -/
def setReplicasBody : List MAction :=
  [MAction.writeF SField.replicas]

/-- Body of `Sentinel.Replicas` (lines 69-71): `return s.replicas`. -/
def replicasBody : List MAction :=
  [MAction.readF SField.replicas]

/-- Body of `Sentinel.RequireAuth` (lines 134-138): `s.Lock()`,
deferred `s.Unlock()`, `s.password = pw`. -/
def requireAuthBody : List MAction :=
  [MAction.lock, MAction.writeF SField.password, MAction.unlock]

/-- Body of `Sentinel.Addr` (lines 142-146): lock, read `s.srv`, call the
external `Addr().String()`, unlock. -/
def addrBody : List MAction :=
  [MAction.lock, MAction.readF SField.srv, MAction.callExt, MAction.unlock]

/-- Body of `Sentinel.Host` (lines 149-153). -/
def hostBody : List MAction :=
  [MAction.lock, MAction.readF SField.srv, MAction.callExt, MAction.unlock]

/-- Body of `Sentinel.Port` (lines 156-160). -/
def portBody : List MAction :=
  [MAction.lock, MAction.readF SField.srv, MAction.callExt, MAction.unlock]

/-- Body of `Sentinel.CurrentConnectionCount` (lines 163-167). -/
def currentConnectionCountBody : List MAction :=
  [MAction.lock, MAction.readF SField.srv, MAction.callExt, MAction.unlock]

/-- Body of `Sentinel.TotalConnectionCount` (lines 170-174). -/
def totalConnectionCountBody : List MAction :=
  [MAction.lock, MAction.readF SField.srv, MAction.callExt, MAction.unlock]

/-- Body of the unexported `start` (lines 99-107): lock, store the server,
read its port via the external `srv.Addr().Port`, store the port, register
PING handlers (`commandsPing`), unlock. -/
def startBody : List MAction :=
  [MAction.lock, MAction.writeF SField.srv, MAction.callExt,
   MAction.writeF SField.port, MAction.callExt, MAction.unlock]

/-- A method body holds the controller lock for its full body: its first
action acquires the lock, its last action releases it, and no lock or unlock
occurs in between. -/
def locksFullBody (t : List MAction) : Bool :=
  match t with
  | MAction.lock :: rest =>
      match rest.reverse with
      | MAction.unlock :: mid =>
          mid.all (fun a => !(a == MAction.lock) && !(a == MAction.unlock))
      | _ => false
  | _ => false

/-! ### Go slice aliasing model for the replica list

Claim C9 is about heap aliasing: two controllers built from the same options
mutators can hold the very same replica slice header (pointer, length) into a
shared backing array, and `append` may write into that shared array.  This
refined model makes backing arrays and slice headers explicit.  A slice
header is an array identity plus a length (no slicing expressions occur in
the source, so the offset is always 0 and the capacity is the backing
array's length). -/

/-- A Go slice header over a heap of backing arrays. -/
structure GoSlice where
  arrId : Nat
  len : Nat
deriving DecidableEq, Repr

/-- The heap of backing arrays: contents by array identity, plus the next
fresh identity. -/
structure Heap where
  arr : Nat → List Miniredis
  next : Nat

/-- A (possibly nil) slice is well formed in a heap when its array exists and
its length is within the backing array. -/
def Heap.WfSlice (h : Heap) : Option GoSlice → Prop
  | none => True
  | some sl => sl.arrId < h.next ∧ sl.len ≤ (h.arr sl.arrId).length

/-- The elements a (possibly nil) slice denotes: the first `len` elements of
its backing array; a nil slice denotes the empty list. -/
def Heap.view (h : Heap) : Option GoSlice → List Miniredis
  | none => []
  | some sl => (h.arr sl.arrId).take sl.len

/-- Allocate a fresh backing array holding `xs`. -/
def Heap.alloc (h : Heap) (xs : List Miniredis) : Heap × GoSlice :=
  ({ arr := Function.update h.arr h.next xs, next := h.next + 1 },
   { arrId := h.next, len := xs.length })

/-- Go `append(s, x)` on a replica slice: on a nil slice, allocates a
one-element array; with spare capacity (backing array longer than the
length), writes `x` in place at index `len` of the shared backing array;
otherwise allocates a fresh backing array.  (Real Go grows the capacity
further on reallocation; the extra capacity is unobservable through this
API after a single append and is modelled minimally.) -/
def Heap.appendSlice (h : Heap) (s : Option GoSlice) (x : Miniredis) :
    Heap × GoSlice :=
  match s with
  | none => h.alloc [x]
  | some sl =>
      let backing := h.arr sl.arrId
      if sl.len < backing.length then
        ({ h with arr := Function.update h.arr sl.arrId (backing.set sl.len x) },
         { arrId := sl.arrId, len := sl.len + 1 })
      else
        h.alloc (backing.take sl.len ++ [x])

/-- The topology fields of a `Sentinel` in the slice-aliasing model. -/
structure SentinelH where
  master : Option Miniredis
  replicas : Option GoSlice
deriving DecidableEq, Repr

/-- Resolved options in the slice-aliasing model: `replicas` is the very
slice header the caller supplied to `WithReplicas` (`GetOpts` deep-copies
only the defaults, whose replica slice is nil; the caller's slice is stored
by the mutator as-is, aliased). -/
structure OptionsH where
  master : Option Miniredis
  replicas : Option GoSlice
deriving DecidableEq, Repr

/-- `NewSentinel` in the slice-aliasing model: when a master is set, the
default replica list is the fresh one-element literal
`[]*miniredis.Miniredis{o.master}` (a new allocation per construction); a
non-nil `o.replicas` is then stored as-is, aliasing the caller's slice. -/
def NewSentinelH (h : Heap) (o : OptionsH) : Heap × SentinelH :=
  let hs :=
    match o.master with
    | some m =>
        let (h', sl) := h.alloc [m]
        (h', ({ master := some m, replicas := some sl } : SentinelH))
    | none => (h, ({ master := none, replicas := none } : SentinelH))
  match o.replicas with
  | some rs => (hs.1, { hs.2 with replicas := some rs })
  | none => hs

/-- `Sentinel.AddReplica` in the slice-aliasing model:
`s.replicas = append(s.replicas, r)`. -/
def SentinelH.AddReplica (s : SentinelH) (h : Heap) (r : Miniredis) :
    Heap × SentinelH :=
  let (h', sl) := h.appendSlice s.replicas r
  (h', { s with replicas := some sl })

/-- `Sentinel.Replicas` in the slice-aliasing model: the elements the
controller's replica slice denotes. -/
def SentinelH.Replicas (s : SentinelH) (h : Heap) : List Miniredis :=
  h.view s.replicas

/-- `Sentinel.Master` in the slice-aliasing model. -/
def SentinelH.Master (s : SentinelH) : Option Miniredis :=
  s.master

/-! ### Concrete test states shared by witnesses -/

/-- A controller whose password is "secret" (auth enabled). -/
def sAuth : Sentinel :=
  { srv := none, port := 0, password := "secret", master := none,
    replicas := [] }

/-- A fresh peer: context slot still nil, nothing written. -/
def cFresh : Peer := { ctx := none, written := [] }

/-- A peer whose context is authenticated. -/
def cAuthed : Peer := { ctx := some { authenticated := true }, written := [] }

/-! ### Theorems -/

/-- C1: `handleAuth` returns allowed without writing any reply when the
current password is empty; with a non-empty password it returns allowed
exactly when the connection's context has `authenticated = true`, and on
denial it writes exactly the error reply "NOAUTH Authentication required."
to the connection and returns denied. -/
theorem handleAuth_spec (s : Sentinel) (c : Peer) :
    (s.password = "" → s.handleAuth c = (c, true)) ∧
    (s.password ≠ "" →
      (((s.handleAuth c).2 = true) ↔ ctxAuthenticated c = true) ∧
      (ctxAuthenticated c = false →
        (s.handleAuth c).1.written =
          c.written ++ ["NOAUTH Authentication required."] ∧
        (s.handleAuth c).2 = false)) := by
  rcases c with ⟨ctx, written⟩
  constructor
  · intro h
    simp [Sentinel.handleAuth, h]
  · intro h
    cases ctx with
    | none =>
        simp [Sentinel.handleAuth, h, getCtx, ctxAuthenticated]
    | some cx =>
        cases hb : cx.authenticated <;>
          simp [Sentinel.handleAuth, h, getCtx, ctxAuthenticated, hb]

/-- Witness for C1 at a concrete denied connection: password "secret",
fresh unauthenticated peer. -/
theorem handleAuth_spec_witness :
    (sAuth.handleAuth cFresh).1.written =
      cFresh.written ++ ["NOAUTH Authentication required."] ∧
    (sAuth.handleAuth cFresh).2 = false :=
  ((handleAuth_spec sAuth cFresh).2 (by decide)).2 (by rfl)

/-- C3: with a master set and no explicit replica list, construction yields
the one-element replica list containing the master; an explicit empty
replica list (`WithReplicas([])`, a non-nil empty slice) yields an empty
replica list even when a master is set. -/
theorem newSentinel_replica_default (opts : List OptionFn) (m : Miniredis) :
    ((GetOpts opts).master = some m → (GetOpts opts).replicas = none →
      (NewSentinel opts).Replicas = [m]) ∧
    ((GetOpts opts).master = some m → (GetOpts opts).replicas = some [] →
      (NewSentinel opts).Replicas = []) := by
  constructor <;> intro h1 h2 <;>
    simp [NewSentinel, Sentinel.Replicas, h1, h2]

/-- Witness for C3 at concrete option lists `[WithMaster m]` and
`[WithMaster m, WithReplicas []]` with `m` the handle of identity 0. -/
theorem newSentinel_replica_default_witness :
    (NewSentinel [WithMaster ⟨0⟩]).Replicas = [⟨0⟩] ∧
    (NewSentinel [WithMaster ⟨0⟩, WithReplicas []]).Replicas = [] :=
  ⟨(newSentinel_replica_default [WithMaster ⟨0⟩] ⟨0⟩).1 (by rfl) (by rfl),
   (newSentinel_replica_default [WithMaster ⟨0⟩, WithReplicas []] ⟨0⟩).2
     (by rfl) (by rfl)⟩

/-- C6: `Close` never fails (it has no error result), is a no-op on a
never-started or already-closed controller, and in all cases leaves
password, bound port, master and replica list unchanged, only detaching the
listener handle. -/
theorem close_frame (s : Sentinel) :
    s.Close.srv = none ∧
    s.Close.password = s.password ∧
    s.Close.port = s.port ∧
    s.Close.master = s.master ∧
    s.Close.replicas = s.replicas ∧
    (s.srv = none → s.Close = s) := by
  rcases s with ⟨srv, port, pw, m, r⟩
  cases srv <;> simp [Sentinel.Close]

/-- Witness for C6 on a concrete never-started controller. -/
theorem close_frame_witness :
    (NewSentinel []).Close = NewSentinel [] :=
  (close_frame (NewSentinel [])).2.2.2.2.2 (by rfl)

/-- C7: the authenticated flag is monotonic per connection: `handleAuth`,
`setAuthenticated` and `getCtx` never reset it from true to false, and a
password change (`RequireAuth`, which touches no connection context) never
retroactively deauthenticates: an authenticated connection still passes the
auth check under any new password. -/
theorem authenticated_monotonic (s : Sentinel) (c : Peer) (pw : String)
    (h : ctxAuthenticated c = true) :
    ctxAuthenticated (s.handleAuth c).1 = true ∧
    ctxAuthenticated (setAuthenticated c) = true ∧
    ctxAuthenticated (getCtx c).1 = true ∧
    ((s.RequireAuth pw).handleAuth c).2 = true := by
  rcases c with ⟨ctx, written⟩
  cases ctx with
  | none => simp [ctxAuthenticated] at h
  | some cx =>
      have hb : cx.authenticated = true := by
        simpa [ctxAuthenticated] using h
      by_cases hpw : s.password = "" <;>
        by_cases hpw2 : pw = "" <;>
          simp [Sentinel.handleAuth, Sentinel.RequireAuth, setAuthenticated,
                getCtx, ctxAuthenticated, hb, hpw, hpw2]

/-- Witness for C7 at a concrete authenticated peer and a password change
from "secret" to "rotated". -/
theorem authenticated_monotonic_witness :
    ctxAuthenticated (sAuth.handleAuth cAuthed).1 = true ∧
    ctxAuthenticated (setAuthenticated cAuthed) = true ∧
    ctxAuthenticated (getCtx cAuthed).1 = true ∧
    ((sAuth.RequireAuth "rotated").handleAuth cAuthed).2 = true :=
  authenticated_monotonic sAuth cAuthed "rotated" (by rfl)

/-- C8: a failed bind in `Start` or `StartAddr` returns the error and leaves
the controller exactly in its previous state (same listener handle, bound
port, password, master and replica list). -/
theorem start_bind_error_frame (s : Sentinel) (env : NetEnv) (ip : String)
    (reqPort : Nat) (h1 : env s.port = Except.error ())
    (h2 : env reqPort = Except.error ()) :
    s.Start env = (s, Except.error ()) ∧
    s.StartAddr env ip reqPort = (s, Except.error ()) := by
  constructor <;>
    simp [Sentinel.Start, Sentinel.StartAddr, newServer, h1, h2]

/-- Witness for C8 under an environment in which every bind fails. -/
theorem start_bind_error_frame_witness :
    (NewSentinel []).Start (fun _ => Except.error ()) =
      (NewSentinel [], Except.error ()) ∧
    (NewSentinel []).StartAddr (fun _ => Except.error ()) "127.0.0.1" 6379 =
      (NewSentinel [], Except.error ()) :=
  start_bind_error_frame (NewSentinel []) (fun _ => Except.error ())
    "127.0.0.1" 6379 (by rfl) (by rfl)

/-- C10: the post-construction setter `Sentinel.WithMaster` changes only the
master field — never the replica list (nor listener, port or password): a
controller built with no options followed by `WithMaster` has an empty
replica list, unlike one built with the master option, whose replica list
defaults to the one-element list of the master. -/
theorem withMaster_method_frame (s : Sentinel) (m : Miniredis) :
    (s.WithMaster m).master = some m ∧
    (s.WithMaster m).replicas = s.replicas ∧
    (s.WithMaster m).srv = s.srv ∧
    (s.WithMaster m).port = s.port ∧
    (s.WithMaster m).password = s.password ∧
    ((NewSentinel []).WithMaster m).Replicas = [] ∧
    (NewSentinel [WithMaster m]).Replicas = [m] := by
  simp [Sentinel.WithMaster, NewSentinel, Sentinel.Replicas, GetOpts,
        defaultOptions, WithMaster]

/-- C5: after a successful `Start` binding port `p`, `Close` followed by
`Restart` (whose bind succeeds) rebinds the same port `p`, with password,
master and replica list unchanged throughout. -/
theorem start_close_restart_same_port (s : Sentinel) (env : NetEnv)
    (hf : env.Faithful) (p q : Nat)
    (h1 : env s.port = Except.ok p)
    (h2 : env p = Except.ok q) :
    (s.Start env).1.port = p ∧
    ((s.Start env).1.Close.Restart env).2 = Except.ok () ∧
    ((s.Start env).1.Close.Restart env).1.port = p ∧
    ((s.Start env).1.Close.Restart env).1.password = s.password ∧
    ((s.Start env).1.Close.Restart env).1.master = s.master ∧
    ((s.Start env).1.Close.Restart env).1.replicas = s.replicas := by
  have hp0 : p ≠ 0 := by
    have := (hf s.port p h1).2
    exact this
  have hqp : q = p := (hf p q h2).1 hp0
  subst hqp
  simp [Sentinel.Start, Sentinel.Restart, Sentinel.Close, Sentinel.start,
        newServer, h1, h2]

/-- Witness for C5 under a concrete environment that resolves an ephemeral
bind to port 37 and binds every nonzero request to itself. -/
theorem start_close_restart_same_port_witness :
    ((NewSentinel []).Start
        (fun r => Except.ok (if r = 0 then 37 else r))).1.port = 37 ∧
    (((NewSentinel []).Start
        (fun r => Except.ok (if r = 0 then 37 else r))).1.Close.Restart
        (fun r => Except.ok (if r = 0 then 37 else r))).2 = Except.ok () ∧
    (((NewSentinel []).Start
        (fun r => Except.ok (if r = 0 then 37 else r))).1.Close.Restart
        (fun r => Except.ok (if r = 0 then 37 else r))).1.port = 37 ∧
    (((NewSentinel []).Start
        (fun r => Except.ok (if r = 0 then 37 else r))).1.Close.Restart
        (fun r => Except.ok (if r = 0 then 37 else r))).1.password =
      (NewSentinel []).password ∧
    (((NewSentinel []).Start
        (fun r => Except.ok (if r = 0 then 37 else r))).1.Close.Restart
        (fun r => Except.ok (if r = 0 then 37 else r))).1.master =
      (NewSentinel []).master ∧
    (((NewSentinel []).Start
        (fun r => Except.ok (if r = 0 then 37 else r))).1.Close.Restart
        (fun r => Except.ok (if r = 0 then 37 else r))).1.replicas =
      (NewSentinel []).replicas :=
  start_close_restart_same_port (NewSentinel [])
    (fun r => Except.ok (if r = 0 then 37 else r))
    (by
      intro a b hab
      by_cases ha : a = 0
      · subst ha
        simp at hab
        subst hab
        exact ⟨fun hc => absurd rfl hc, by decide⟩
      · simp [ha] at hab
        subst hab
        exact ⟨fun _ => rfl, ha⟩)
    37 37 (by rfl) (by simp)

/-- C2 counterexample: on a never-started controller the address query (and
the current-connection-count query) dereferences the nil listener handle and
panics — it is not a defined error result or documented zero value, refuting
the claim that no panic occurs. -/
theorem addr_never_started_panics :
    (NewSentinel []).Addr = GoResult.nilPanic ∧
    (NewSentinel []).CurrentConnectionCount = GoResult.nilPanic := by
  constructor <;> rfl

/-- C2 amended: on a controller with no active listener (never started, or
closed), `Addr`, `Host`, `Port`, `CurrentConnectionCount` and
`TotalConnectionCount` all evaluate a method on the nil listener handle and
panic (Go nil-pointer dereference) instead of returning a documented
error or zero value. -/
theorem queries_nil_panic (s : Sentinel) (h : s.srv = none) :
    s.Addr = GoResult.nilPanic ∧
    s.Host = GoResult.nilPanic ∧
    s.Port = GoResult.nilPanic ∧
    s.CurrentConnectionCount = GoResult.nilPanic ∧
    s.TotalConnectionCount = GoResult.nilPanic := by
  simp [Sentinel.Addr, Sentinel.Host, Sentinel.Port,
        Sentinel.CurrentConnectionCount, Sentinel.TotalConnectionCount, h]

/-- Witness for the amended C2 on a concrete never-started controller. -/
theorem queries_nil_panic_witness :
    (NewSentinel []).Addr = GoResult.nilPanic ∧
    (NewSentinel []).Host = GoResult.nilPanic ∧
    (NewSentinel []).Port = GoResult.nilPanic ∧
    (NewSentinel []).CurrentConnectionCount = GoResult.nilPanic ∧
    (NewSentinel []).TotalConnectionCount = GoResult.nilPanic :=
  queries_nil_panic (NewSentinel []) (by rfl)

/-- C4 counterexample: the bodies of `Sentinel.WithMaster` and
`Sentinel.AddReplica` never acquire the controller lock, refuting the claim
that every accessor and mutator holds the lock for its full body. -/
theorem withMaster_addReplica_no_lock :
    locksFullBody withMasterBody = false ∧
    locksFullBody addReplicaBody = false := by
  constructor <;> rfl

/-- C4 amended: the lifecycle and auth operations (`RequireAuth`, `Addr`,
`Host`, `Port`, `CurrentConnectionCount`, `TotalConnectionCount` and the
unexported `start`) hold the controller lock for their full bodies, but the
topology accessors and mutators (`WithMaster`, `Master`, `AddReplica`,
`SetReplicas`, `Replicas`) perform their field accesses with no locking at
all. -/
theorem lock_discipline :
    locksFullBody requireAuthBody = true ∧
    locksFullBody addrBody = true ∧
    locksFullBody hostBody = true ∧
    locksFullBody portBody = true ∧
    locksFullBody currentConnectionCountBody = true ∧
    locksFullBody totalConnectionCountBody = true ∧
    locksFullBody startBody = true ∧
    locksFullBody withMasterBody = false ∧
    locksFullBody masterBody = false ∧
    locksFullBody addReplicaBody = false ∧
    locksFullBody setReplicasBody = false ∧
    locksFullBody replicasBody = false := by
  decide

/-! ### Heap lemmas for the slice-aliasing model -/

/-- Allocating a fresh backing array leaves the view of any existing
well-formed slice unchanged. -/
theorem view_alloc_frame (h : Heap) (t : Option GoSlice)
    (xs : List Miniredis) (hwf : h.WfSlice t) :
    (h.alloc xs).1.view t = h.view t := by
  cases t with
  | none => rfl
  | some tl =>
      simp only [Heap.view, Heap.alloc]
      rw [Function.update_noteq (Nat.ne_of_lt hwf.1)]

/-- Allocation preserves well-formedness of existing slices. -/
theorem wfSlice_alloc_frame (h : Heap) (t : Option GoSlice)
    (xs : List Miniredis) (hwf : h.WfSlice t) :
    (h.alloc xs).1.WfSlice t := by
  cases t with
  | none => trivial
  | some tl =>
      refine ⟨Nat.lt_succ_of_lt hwf.1, ?_⟩
      simp only [Heap.alloc, Function.update_noteq (Nat.ne_of_lt hwf.1)]
      exact hwf.2

/-- The slice returned by an allocation is well formed in the new heap. -/
theorem wfSlice_alloc_self (h : Heap) (xs : List Miniredis) :
    (h.alloc xs).1.WfSlice (some (h.alloc xs).2) := by
  refine ⟨Nat.lt_succ_self _, ?_⟩
  simp [Heap.alloc, Function.update_same]

/-- Appending through one slice header never changes the elements that same
header denotes: an in-place append writes only at index `len`, past the
shared view, and a reallocating append leaves the old array untouched. -/
theorem view_appendSlice_same (h : Heap) (s : Option GoSlice) (x : Miniredis)
    (hwf : h.WfSlice s) :
    (h.appendSlice s x).1.view s = h.view s := by
  cases s with
  | none => rfl
  | some sl =>
      by_cases hlt : sl.len < (h.arr sl.arrId).length
      · simp only [Heap.appendSlice, hlt, if_pos, Heap.view,
                   Function.update_same]
        rw [List.set_take, List.set_eq_of_length_le]
        simp [List.length_take]
      · simp only [Heap.appendSlice, hlt, if_neg, not_false_iff]
        exact view_alloc_frame h (some sl) _ hwf

/-- Appending through one slice header never changes the view of a slice
over a different backing array. -/
theorem view_appendSlice_ne (h : Heap) (sl tl : GoSlice) (x : Miniredis)
    (hne : tl.arrId ≠ sl.arrId) (hwf : h.WfSlice (some tl)) :
    (h.appendSlice (some sl) x).1.view (some tl) = h.view (some tl) := by
  by_cases hlt : sl.len < (h.arr sl.arrId).length
  · simp only [Heap.appendSlice, hlt, if_pos, Heap.view]
    rw [Function.update_noteq hne]
  · simp only [Heap.appendSlice, hlt, if_neg, not_false_iff]
    exact view_alloc_frame h (some tl) _ hwf

/-- The slice returned by an append denotes the old elements followed by the
appended one. -/
theorem view_appendSlice_self (h : Heap) (s : Option GoSlice) (x : Miniredis)
    (hwf : h.WfSlice s) :
    (h.appendSlice s x).1.view (some (h.appendSlice s x).2) =
      h.view s ++ [x] := by
  cases s with
  | none =>
      simp [Heap.appendSlice, Heap.alloc, Heap.view, Function.update_same]
  | some sl =>
      by_cases hlt : sl.len < (h.arr sl.arrId).length
      · simp only [Heap.appendSlice, hlt, if_pos, Heap.view,
                   Function.update_same]
        rw [List.take_succ, List.getElem?_set_self hlt, List.set_take,
            List.set_eq_of_length_le]
        · simp
        · simp [List.length_take]
      · have hge : (h.arr sl.arrId).length ≤ sl.len := Nat.le_of_not_lt hlt
        have heq : sl.len = (h.arr sl.arrId).length :=
          Nat.le_antisymm hwf.2 hge
        simp only [Heap.appendSlice, hlt, if_neg, not_false_iff, Heap.alloc,
                   Heap.view, Function.update_same]
        rw [List.take_length]

/-! ### The two-controller scenario of claim C9

Two controllers are constructed in sequence on a shared heap from the same
resolved options, then `AddReplica` runs on the first.  With a caller-
supplied replica slice both controllers hold the very same slice header
(the options store it as-is); with only a master set, each construction
allocates its own one-element default array. -/

/-- Heap after constructing the first controller. -/
def sceneH1 (h : Heap) (o : OptionsH) : Heap := (NewSentinelH h o).1

/-- The first controller. -/
def sceneA (h : Heap) (o : OptionsH) : SentinelH := (NewSentinelH h o).2

/-- Heap after constructing the second controller. -/
def sceneH2 (h : Heap) (o : OptionsH) : Heap :=
  (NewSentinelH (sceneH1 h o) o).1

/-- The second controller. -/
def sceneB (h : Heap) (o : OptionsH) : SentinelH :=
  (NewSentinelH (sceneH1 h o) o).2

/-- Heap after `AddReplica r` on the first controller. -/
def sceneH3 (h : Heap) (o : OptionsH) (r : Miniredis) : Heap :=
  ((sceneA h o).AddReplica (sceneH2 h o) r).1

/-- The first controller after its `AddReplica r`. -/
def sceneA2 (h : Heap) (o : OptionsH) (r : Miniredis) : SentinelH :=
  ((sceneA h o).AddReplica (sceneH2 h o) r).2

/-- C9: two controllers constructed from the same resolved options have
independent topology: `AddReplica` on the first appends to its own replica
view and leaves the second controller's replica view unchanged, even though
the two may share a backing array (with a caller-supplied slice the append
writes only past the sibling's length, or into a fresh array).  `AddReplica`
also leaves the master field unchanged; the untouched sibling's master is a
plain field of an unmodified value, so its observation cannot change. -/
theorem independent_topology (h : Heap) (o : OptionsH) (r : Miniredis)
    (hwf : h.WfSlice o.replicas) :
    (sceneB h o).Replicas (sceneH3 h o r) =
      (sceneB h o).Replicas (sceneH2 h o) ∧
    (sceneA2 h o r).Master = (sceneA h o).Master ∧
    (sceneA2 h o r).Replicas (sceneH3 h o r) =
      (sceneA h o).Replicas (sceneH2 h o) ++ [r] := by
  rcases o with ⟨om, orep⟩
  cases om with
  | none =>
      cases orep with
      | none =>
          refine ⟨rfl, rfl, ?_⟩
          have := view_appendSlice_self h none r trivial
          simpa [sceneA2, sceneA, sceneH3, sceneH2, sceneH1, NewSentinelH,
                 SentinelH.AddReplica, SentinelH.Replicas] using this
      | some rs =>
          have hwf2 : h.WfSlice (some rs) := hwf
          refine ⟨?_, rfl, ?_⟩
          · have := view_appendSlice_same h (some rs) r hwf2
            simpa [sceneB, sceneA, sceneH3, sceneH2, sceneH1, NewSentinelH,
                   SentinelH.AddReplica, SentinelH.Replicas] using this
          · have := view_appendSlice_self h (some rs) r hwf2
            simpa [sceneA2, sceneA, sceneH3, sceneH2, sceneH1, NewSentinelH,
                   SentinelH.AddReplica, SentinelH.Replicas] using this
  | some m =>
      cases orep with
      | none =>
          have hwfA1 : (h.alloc [m]).1.WfSlice (some (h.alloc [m]).2) :=
            wfSlice_alloc_self h [m]
          have hwfA2 :
              ((h.alloc [m]).1.alloc [m]).1.WfSlice (some (h.alloc [m]).2) :=
            wfSlice_alloc_frame (h.alloc [m]).1 (some (h.alloc [m]).2) [m]
              hwfA1
          have hwfB :
              ((h.alloc [m]).1.alloc [m]).1.WfSlice
                (some ((h.alloc [m]).1.alloc [m]).2) :=
            wfSlice_alloc_self (h.alloc [m]).1 [m]
          have hne :
              (((h.alloc [m]).1.alloc [m]).2).arrId ≠
                ((h.alloc [m]).2).arrId := by
            simp [Heap.alloc]
          refine ⟨?_, rfl, ?_⟩
          · have := view_appendSlice_ne ((h.alloc [m]).1.alloc [m]).1
              ((h.alloc [m]).2) (((h.alloc [m]).1.alloc [m]).2) r hne hwfB
            simpa [sceneB, sceneA, sceneH3, sceneH2, sceneH1, NewSentinelH,
                   SentinelH.AddReplica, SentinelH.Replicas] using this
          · have := view_appendSlice_self ((h.alloc [m]).1.alloc [m]).1
              (some ((h.alloc [m]).2)) r hwfA2
            simpa [sceneA2, sceneA, sceneH3, sceneH2, sceneH1, NewSentinelH,
                   SentinelH.AddReplica, SentinelH.Replicas] using this
      | some rs =>
          have hwf2 :
              ((h.alloc [m]).1.alloc [m]).1.WfSlice (some rs) :=
            wfSlice_alloc_frame (h.alloc [m]).1 (some rs) [m]
              (wfSlice_alloc_frame h (some rs) [m] hwf)
          refine ⟨?_, rfl, ?_⟩
          · have := view_appendSlice_same ((h.alloc [m]).1.alloc [m]).1
              (some rs) r hwf2
            simpa [sceneB, sceneA, sceneH3, sceneH2, sceneH1, NewSentinelH,
                   SentinelH.AddReplica, SentinelH.Replicas] using this
          · have := view_appendSlice_self ((h.alloc [m]).1.alloc [m]).1
              (some rs) r hwf2
            simpa [sceneA2, sceneA, sceneH3, sceneH2, sceneH1, NewSentinelH,
                   SentinelH.AddReplica, SentinelH.Replicas] using this

/-- An empty heap. -/
def heap0 : Heap := { arr := fun _ => [], next := 0 }

/-- Concrete resolved options: master handle of identity 0, no caller
replica slice. -/
def opts0 : OptionsH := { master := some ⟨0⟩, replicas := none }

/-- Witness for C9 at the empty heap, options with a master of identity 0,
and an appended replica of identity 1. -/
theorem independent_topology_witness :
    heap0.WfSlice opts0.replicas ∧
    ((sceneB heap0 opts0).Replicas (sceneH3 heap0 opts0 ⟨1⟩) =
       (sceneB heap0 opts0).Replicas (sceneH2 heap0 opts0) ∧
     (sceneA2 heap0 opts0 ⟨1⟩).Master = (sceneA heap0 opts0).Master ∧
     (sceneA2 heap0 opts0 ⟨1⟩).Replicas (sceneH3 heap0 opts0 ⟨1⟩) =
       (sceneA heap0 opts0).Replicas (sceneH2 heap0 opts0) ++ [⟨1⟩]) :=
  ⟨trivial, independent_topology heap0 opts0 ⟨1⟩ trivial⟩
